import Mathlib

/-! # serial-vault: the system-user assertion handler

A shallow embedding of `service/app/handlers_app_user.go` (the handler
`SystemUserAssertion` and the header builder `userRequestToAssertion`), together
with the parts of the Go standard library that decide what the handler does:
`regexp.ReplaceAllString` for the pattern of the program, and from package `time`
the layout tokenizer `nextStdChunk`, `Parse`, `Date`, `Add` and `Format`, as they
stood in Go 1.10, the release of the time the program was written.

Go strings are embedded as `String`; the scanning functions work on the list of
characters. Go `error` values are embedded as the text of their `Error()`.
-/

namespace SerialVault

/-! ## Package regexp: the pattern of the program -/

/-- The character class `[A-Za-z0-9]`. -/
def isAlnum (c : Char) : Bool :=
  ('A' ≤ c && c ≤ 'Z') || ('a' ≤ c && c ≤ 'z') || ('0' ≤ c && c ≤ '9')

/-- One character of the negated class `[^A-Za-z0-9]`. -/
def inNegClass (c : Char) : Bool := !isAlnum c

/-- The scan of `ReplaceAllString` for the pattern `[^A-Za-z0-9]+`: matches are the
maximal runs of characters of the negated class (the `+` is greedy and matches do not
overlap); each run is replaced by `repl`, every other character is copied. The flag
says whether the scan is inside a run whose replacement was already written. -/
def replaceRuns (repl : List Char) : Bool → List Char → List Char
  | _, [] => []
  | inRun, c :: cs =>
    if inNegClass c then
      (if inRun then replaceRuns repl true cs else repl ++ replaceRuns repl true cs)
    else c :: replaceRuns repl false cs

/-- The call `reg.ReplaceAllString(src, repl)` for `reg = "[^A-Za-z0-9]+"`. -/
def ReplaceAllString (src repl : String) : String :=
  String.mk (replaceRuns repl.data false src.data)

/-! ## Package time: durations and instants -/

/-- An instant in the UTC location: seconds since the Unix epoch and the nanoseconds
within the second (`0 ≤ nsec < 10^9`). -/
structure Time where
  sec : Int
  nsec : Int
  deriving DecidableEq, Repr

def Nanosecond : Int := 1
def Microsecond : Int := 1000 * Nanosecond
def Millisecond : Int := 1000 * Microsecond
def Second : Int := 1000 * Millisecond
def Minute : Int := 60 * Second
def Hour : Int := 60 * Minute

/-- The constant `oneYearDuration = time.Duration(24*365) * time.Hour`, in nanoseconds. -/
def oneYearDuration : Int := (24 * 365) * Hour

/-- The constant `userAssertionRevision`. -/
def userAssertionRevision : String := "1"

/-- Conversion to `uint64`. -/
def toUint64 (x : Int) : Int := x % 2 ^ 64

/-- Conversion to `int64`. -/
def toInt64 (x : Int) : Int := (x + 2 ^ 63) % 2 ^ 64 - 2 ^ 63

/-- The method `Time.Add`: the duration is split into whole seconds and nanoseconds
by truncated division, and the nanoseconds carry into the seconds. -/
def Time.Add (t : Time) (d : Int) : Time :=
  let dsec := Int.tdiv d 1000000000
  let nsec := t.nsec + Int.tmod d 1000000000
  if nsec ≥ 1000000000 then ⟨toInt64 (t.sec + (dsec + 1)), nsec - 1000000000⟩
  else if nsec < 0 then ⟨toInt64 (t.sec + (dsec - 1)), nsec + 1000000000⟩
  else ⟨toInt64 (t.sec + dsec), nsec⟩

def secondsPerMinute : Nat := 60
def secondsPerHour : Nat := 60 * secondsPerMinute
def secondsPerDay : Nat := 24 * secondsPerHour
def daysPer400Years : Nat := 365 * 400 + 97
def daysPer100Years : Nat := 365 * 100 + 24
def daysPer4Years : Nat := 365 * 4 + 1

def absoluteZeroYear : Int := -292277022399
def internalYear : Int := 1

/-- The constant `absoluteToInternal`:
`(absoluteZeroYear - internalYear) * 365.2425 * secondsPerDay`. -/
def absoluteToInternal : Int := (absoluteZeroYear - internalYear) * 3652425 * 86400 / 10000
def internalToAbsolute : Int := -absoluteToInternal
def unixToInternal : Int := (1969 * 365 + 1969 / 4 - 1969 / 100 + 1969 / 400) * 86400
def internalToUnix : Int := -unixToInternal

/-- The method `Time.abs` for a time in UTC: seconds since the absolute zero year,
as a `uint64`. -/
def Time.abs (t : Time) : Nat := (toUint64 (t.sec + (unixToInternal + internalToAbsolute))).toNat

/-- The function `isLeap`; Go's `%` truncates. -/
def isLeap (year : Int) : Bool :=
  Int.tmod year 4 == 0 && (Int.tmod year 100 != 0 || Int.tmod year 400 == 0)

/-- The table `daysBefore`: days in a non-leap year before the month with index m+1. -/
def daysBefore : List Nat := [0, 31, 59, 90, 120, 151, 181, 212, 243, 273, 304, 334, 365]

/-- The year and the day of the year, the first half of `absDate`. -/
def absYearDay (abs : Nat) : Int × Nat :=
  let d := abs / secondsPerDay
  -- 400-year cycles
  let n := d / daysPer400Years
  let y := 400 * n
  let d := d - daysPer400Years * n
  -- 100-year cycles, the quotient 4 of the last day cut to 3
  let n := d / daysPer100Years
  let n := n - n / 4
  let y := y + 100 * n
  let d := d - daysPer100Years * n
  -- 4-year cycles
  let n := d / daysPer4Years
  let y := y + 4 * n
  let d := d - daysPer4Years * n
  -- years within a 4-year cycle, the quotient 4 of the last day cut to 3
  let n := d / 365
  let n := n - n / 4
  let y := y + n
  let d := d - 365 * n
  (toInt64 ((y : Int) + absoluteZeroYear), d)

/-- The month (January is 1) and the day of the month from the day of the year, the
second half of `absDate`; `leap` is the value of `isLeap(year)`. -/
def monthDay (leap : Bool) (yday : Nat) : Nat × Nat :=
  if leap && yday == 31 + 29 - 1 then (2, 29)
  else
    let day := if leap && yday > 31 + 29 - 1 then yday - 1 else yday
    let month := day / 31
    let e := daysBefore.getD (month + 1) 0
    if day ≥ e then (month + 1 + 1, day - e + 1)
    else (month + 1, day - daysBefore.getD month 0 + 1)

/-- The function `absDate(abs, true)`: year, month and day of the month. -/
def absDate (abs : Nat) : Int × Nat × Nat :=
  let yd := absYearDay abs
  let md := monthDay (isLeap yd.1) yd.2
  (yd.1, md.1, md.2)

/-- The function `absClock`: hour, minute and second within the day. -/
def absClock (abs : Nat) : Nat × Nat × Nat :=
  let sec := abs % secondsPerDay
  let hour := sec / secondsPerHour
  let sec := sec - hour * secondsPerHour
  let min := sec / secondsPerMinute
  let sec := sec - min * secondsPerMinute
  (hour, min, sec)

/-- The function `norm`: carries `lo` into `hi` so that `0 ≤ lo < base`. -/
def norm (hi lo base : Int) : Int × Int :=
  let p : Int × Int :=
    if lo < 0 then
      let n := Int.tdiv (-lo - 1) base + 1
      (hi - n, lo + n * base)
    else (hi, lo)
  if p.2 ≥ base then
    let n := Int.tdiv p.2 base
    (p.1 + n, p.2 - n * base)
  else p

/-- The function `Date` for the UTC location. -/
def Date (year month day hour min sec nsec : Int) : Time :=
  -- normalize month, overflowing into year
  let ym := norm year (month - 1) 12
  let year := ym.1
  let month := ym.2 + 1
  -- normalize nsec, sec, min, hour, overflowing into day
  let sn := norm sec nsec 1000000000
  let ms := norm min sn.1 60
  let hm := norm hour ms.1 60
  let dh := norm day hm.1 24
  let nsec := sn.2
  let sec := ms.2
  let min := hm.2
  let hour := dh.2
  let day := dh.1
  let y := toUint64 (year - absoluteZeroYear)
  -- days from 400-year cycles
  let n := y / 400
  let y := y - 400 * n
  let d := (daysPer400Years : Int) * n
  -- 100-year cycles
  let n := y / 100
  let y := y - 100 * n
  let d := d + (daysPer100Years : Int) * n
  -- 4-year cycles
  let n := y / 4
  let y := y - 4 * n
  let d := d + (daysPer4Years : Int) * n
  -- non-leap years
  let d := d + 365 * y
  -- days before this month
  let d := d + (daysBefore.getD (month - 1).toNat 0 : Nat)
  let d := if isLeap year && month ≥ 3 then d + 1 else d
  -- days before today
  let d := toUint64 (d + toUint64 (day - 1))
  -- time elapsed today
  let abs := toUint64 (d * secondsPerDay)
  let abs := toUint64 (abs + toUint64 (hour * secondsPerHour + min * secondsPerMinute + sec))
  let unix := toInt64 (toInt64 abs + (absoluteToInternal + internalToUnix))
  ⟨unix, nsec⟩

/-! ## Package time: layouts -/

/-- The layout elements that `nextStdChunk` recognises; `none` is the code 0 that it
returns when the layout holds no further element. -/
inductive Std where
  | none
  | stdLongMonth | stdMonth | stdNumMonth | stdZeroMonth
  | stdLongWeekDay | stdWeekDay
  | stdDay | stdUnderDay | stdZeroDay
  | stdHour | stdHour12 | stdZeroHour12
  | stdMinute | stdZeroMinute | stdSecond | stdZeroSecond
  | stdLongYear | stdYear
  | stdPM | stdpm
  | stdTZ
  | stdISO8601TZ | stdISO8601SecondsTZ | stdISO8601ShortTZ
  | stdISO8601ColonTZ | stdISO8601ColonSecondsTZ
  | stdNumTZ | stdNumSecondsTz | stdNumShortTZ | stdNumColonTZ | stdNumColonSecondsTZ
  | stdFracSecond0 (digits : Nat)
  | stdFracSecond9 (digits : Nat)
  deriving DecidableEq, Repr

/-- The test `len(l) >= len(p) && l[:len(p)] == p`. -/
def startsWith : List Char → List Char → Bool
  | [], _ => true
  | _ :: _, [] => false
  | p :: ps, c :: cs => p == c && startsWith ps cs

/-- The function `startsWithLowerCase`. -/
def startsWithLowerCase : List Char → Bool
  | [] => false
  | c :: _ => 'a' ≤ c && c ≤ 'z'

/-- The test `isDigit(s, 0)`. -/
def startsWithDigit : List Char → Bool
  | [] => false
  | c :: _ => '0' ≤ c && c ≤ '9'

/-- The table `std0x`, indexed by the digit after the `0`. -/
def std0x (c : Char) : Std :=
  if c = '1' then .stdZeroMonth else if c = '2' then .stdZeroDay
  else if c = '3' then .stdZeroHour12 else if c = '4' then .stdZeroMinute
  else if c = '5' then .stdZeroSecond else .stdYear

/-- The element, if any, that starts at the head of `l`, with the layout that follows
it and the number of characters of `l` that still belong to the text before the
element (1 for `_2006`, whose underscore is literal). One turn of the `switch` in
`nextStdChunk`. -/
def stdAt (l : List Char) : Option (Nat × Std × List Char) :=
  match l with
  | [] => .none
  | c :: rest =>
    if c = 'J' then
      if startsWith "Jan".data l then
        if startsWith "January".data l then some (0, .stdLongMonth, l.drop 7)
        else if !startsWithLowerCase (l.drop 3) then some (0, .stdMonth, l.drop 3)
        else .none
      else .none
    else if c = 'M' then
      if startsWith "Mon".data l then
        if startsWith "Monday".data l then some (0, .stdLongWeekDay, l.drop 6)
        else if !startsWithLowerCase (l.drop 3) then some (0, .stdWeekDay, l.drop 3)
        else .none
      else if startsWith "MST".data l then some (0, .stdTZ, l.drop 3)
      else .none
    else if c = '0' then
      match rest with
      | d :: rest2 => if '1' ≤ d && d ≤ '6' then some (0, std0x d, rest2) else .none
      | [] => .none
    else if c = '1' then
      if startsWith "15".data l then some (0, .stdHour, l.drop 2)
      else some (0, .stdNumMonth, rest)
    else if c = '2' then
      if startsWith "2006".data l then some (0, .stdLongYear, l.drop 4)
      else some (0, .stdDay, rest)
    else if c = '_' then
      if startsWith "_2".data l then
        if startsWith "2006".data rest then some (1, .stdLongYear, l.drop 5)
        else some (0, .stdUnderDay, l.drop 2)
      else .none
    else if c = '3' then some (0, .stdHour12, rest)
    else if c = '4' then some (0, .stdMinute, rest)
    else if c = '5' then some (0, .stdSecond, rest)
    else if c = 'P' then
      if startsWith "PM".data l then some (0, .stdPM, l.drop 2) else .none
    else if c = 'p' then
      if startsWith "pm".data l then some (0, .stdpm, l.drop 2) else .none
    else if c = '-' then
      if startsWith "-070000".data l then some (0, .stdNumSecondsTz, l.drop 7)
      else if startsWith "-07:00:00".data l then some (0, .stdNumColonSecondsTZ, l.drop 9)
      else if startsWith "-0700".data l then some (0, .stdNumTZ, l.drop 5)
      else if startsWith "-07:00".data l then some (0, .stdNumColonTZ, l.drop 6)
      else if startsWith "-07".data l then some (0, .stdNumShortTZ, l.drop 3)
      else .none
    else if c = 'Z' then
      if startsWith "Z070000".data l then some (0, .stdISO8601SecondsTZ, l.drop 7)
      else if startsWith "Z07:00:00".data l then some (0, .stdISO8601ColonSecondsTZ, l.drop 9)
      else if startsWith "Z0700".data l then some (0, .stdISO8601TZ, l.drop 5)
      else if startsWith "Z07:00".data l then some (0, .stdISO8601ColonTZ, l.drop 6)
      else if startsWith "Z07".data l then some (0, .stdISO8601ShortTZ, l.drop 3)
      else .none
    else if c = '.' then
      match rest with
      | ch :: _ =>
        if ch = '0' || ch = '9' then
          let after := rest.dropWhile (fun x => x == ch)
          let n := (rest.takeWhile (fun x => x == ch)).length
          if !startsWithDigit after then
            some (0, if ch = '9' then .stdFracSecond9 n else .stdFracSecond0 n, after)
          else .none
        else .none
      | [] => .none
    else .none

/-- The loop of `nextStdChunk` from position `i` on: `seen` holds the characters
before `i`, latest first. -/
def nextStdChunkFrom (seen : List Char) : List Char → List Char × Std × List Char
  | [] => (seen.reverse, .none, [])
  | c :: rest =>
    match stdAt (c :: rest) with
    | some (k, std, suffix) => (seen.reverse ++ (c :: rest).take k, std, suffix)
    | .none => nextStdChunkFrom (c :: seen) rest

/-- The function `nextStdChunk`: the text before the first element of the layout, the
element, and the layout after it; `(layout, none, "")` when there is no element. -/
def nextStdChunk (layout : List Char) : List Char × Std × List Char :=
  nextStdChunkFrom [] layout

/-- The function `cutspace`. -/
def cutspace : List Char → List Char
  | [] => []
  | c :: cs => if c = ' ' then cutspace cs else c :: cs

/-- The function `skip`: removes the literal text `pre` from the front of `value`; a
space in `pre` stands for zero or more spaces. `none` is `errBad`. -/
def skip (value pre : List Char) : Nat → Option (List Char)
  | 0 => .none
  | fuel + 1 =>
    match pre with
    | [] => some value
    | p :: ps =>
      if p = ' ' then
        match value with
        | v :: _ =>
          if v ≠ ' ' then .none else skip (cutspace value) (cutspace pre) fuel
        | [] => skip (cutspace value) (cutspace pre) fuel
      else
        match value with
        | [] => .none
        | v :: vs => if v ≠ p then .none else skip vs ps fuel

/-- The outcomes of `time.Parse` in this embedding. -/
inductive ParseResult where
  | ok (t : Time)
  | parseError
  | elementNotEmbedded (std : Std)
  deriving DecidableEq, Repr

/-- The function `time.Parse`. The first turn of its loop is embedded in full: the
layout is split by `nextStdChunk`, the text before the first element is skipped in the
value, and when the layout has no element the value must be used up, the fields keep
their initial values (year 0, month 1, day 1, clock 0) and the result is
`Date(0, 1, 1, 0, 0, 0, 0, UTC)`. The arms that read an element from the value are not
embedded: a layout with an element gives `elementNotEmbedded`. -/
def Parse (layout value : String) : ParseResult :=
  match nextStdChunk layout.data with
  | (pre, .none, _) =>
    match skip value.data pre (pre.length + 1) with
    | .none => .parseError
    | some rest => if rest.length ≠ 0 then .parseError else .ok (Date 0 1 1 0 0 0 0)
  | (_, std, _) => .elementNotEmbedded std

/-- The function `appendInt` on an empty buffer: the decimal digits of a value below
ten to the power `fuel + 1`, the digit buffer of the source holding 20. -/
def decimal : Nat → Nat → List Char
  | 0, u => [Char.ofNat (48 + u % 10)]
  | fuel + 1, u =>
    if u ≥ 10 then decimal fuel (u / 10) ++ [Char.ofNat (48 + u % 10)]
    else [Char.ofNat (48 + u)]

/-- The function `appendInt`: sign, zero padding to `width`, digits. -/
def appendInt (x : Int) (width : Nat) : List Char :=
  let digits := decimal 19 x.natAbs
  (if x < 0 then ['-'] else []) ++ List.replicate (width - digits.length) '0' ++ digits

/-- The layout `time.RFC3339`. -/
def RFC3339 : String := "2006-01-02T15:04:05Z07:00"

/-- The call `t.Format(time.RFC3339)` for a time in UTC: the elements of the layout
are, in order, `stdLongYear`, `stdZeroMonth`, `stdZeroDay`, `stdHour`, `stdZeroMinute`,
`stdZeroSecond` and `stdISO8601ColonTZ`, which prints `Z` for the offset 0. -/
def Time.FormatRFC3339 (t : Time) : String :=
  let abs := t.abs
  let ymd := absDate abs
  let hms := absClock abs
  String.mk (appendInt ymd.1 4 ++ ['-'] ++ appendInt ymd.2.1 2 ++ ['-'] ++ appendInt ymd.2.2 2
    ++ ['T'] ++ appendInt hms.1 2 ++ [':'] ++ appendInt hms.2.1 2 ++ [':'] ++ appendInt hms.2.2 2
    ++ ['Z'])

/-! ## The data model of the handler -/

/-- The type `SystemUserRequest`, the decoded JSON body. -/
structure SystemUserRequest where
  Email : String
  Name : String
  Username : String
  Password : String
  ModelID : Int
  Since : String
  deriving DecidableEq, Repr

/-- The fields of `datastore.Model` that the handler reads. -/
structure Model where
  ID : Int
  Name : String
  AuthorityIDUser : String
  KeyIDUser : String
  KeyActiveUser : Bool
  SealedKeyUser : String
  AssertionUser : String
  deriving DecidableEq, Repr

/-- The fields of `datastore.Account` that the handler reads. -/
structure Account where
  AuthorityID : String
  Assertion : String
  deriving DecidableEq, Repr

/-- A value of the header mapping: a string or a list of strings. -/
inductive HeaderValue where
  | str (s : String)
  | list (l : List String)
  deriving DecidableEq, Repr

/-- The header mapping `map[string]interface{}`, as the list of its entries in the
order of the composite literal. -/
abbrev Headers := List (String × HeaderValue)

/-- The outcome of `json.NewDecoder(r.Body).Decode(&user)`: `io.EOF`, another error
with its text, or the decoded request. -/
inductive DecodeResult where
  | eof
  | failed (msg : String)
  | ok (user : SystemUserRequest)
  deriving DecidableEq, Repr

/-- The collaborators of the handler: the JSON decoder, the datastore
(`GetAllowedModel` is always called with the empty `datastore.User`), the keypair
database, `asserts.Encode`, the random source, the crypt binding, the clock
(`time.Now().UTC()`), and the two constants of snapd, `asserts.SystemUserType.Name`
and `release.Series`. The type `σ` is that of signed assertions. -/
structure Environ (σ : Type) where
  Decode : String → DecodeResult
  GetAllowedModel : Int → Except String Model
  GetAccount : String → Except String Account
  SignAssertion : String → Headers → String → String → String → Except String σ
  Encode : σ → String
  GenerateRandomString : Nat → Except String String
  CLibCryptUser : String → String → String
  Now : Time
  SystemUserTypeName : String
  Series : String

/-- A call that the handler makes to a collaborator, with its arguments. -/
inductive Call where
  | Decode (body : String)
  | GetAllowedModel (modelID : Int)
  | GetAccount (authorityID : String)
  | GenerateRandomString (n : Nat)
  | CLibCryptUser (password salt : String)
  | Now
  | SignAssertion (assertType : String) (headers : Headers)
      (authorityID keyID sealedKey : String)
  | Encode
  | Message (category code text : String)
  deriving DecidableEq, Repr

/-- The type `SystemUserResponse`. -/
structure SystemUserResponse where
  Success : Bool
  ErrorCode : String
  ErrorSubcode : String
  ErrorMessage : String
  Assertion : String
  deriving DecidableEq, Repr

/-- The object written by `response.FormatStandardResponse`. -/
structure StandardResponse where
  Success : Bool
  ErrorCode : String
  ErrorSubcode : String
  ErrorMessage : String
  deriving DecidableEq, Repr

/-- What the handler writes to the response writer. -/
inductive Written where
  | standard (r : StandardResponse)
  | systemUser (r : SystemUserResponse)
  deriving DecidableEq, Repr

def Written.success : Written → Bool
  | .standard r => r.Success
  | .systemUser r => r.Success

def Written.errorCode : Written → String
  | .standard r => r.ErrorCode
  | .systemUser r => r.ErrorCode

def Written.errorSubcode : Written → String
  | .standard r => r.ErrorSubcode
  | .systemUser r => r.ErrorSubcode

def Written.message : Written → String
  | .standard r => r.ErrorMessage
  | .systemUser r => r.ErrorMessage

/-- The `assertion` field of the written object; a standard response has none. -/
def Written.assertion : Written → Option String
  | .standard _ => Option.none
  | .systemUser r => some r.Assertion

/-- Modelled from the spec: `response.FormatStandardResponse`, of package
`service/response`, which is not among the sources. It writes an object that carries
the success mark, the error code, the subcode and the message it is given. -/
def FormatStandardResponse (success : Bool) (errorCode errorSubcode message : String) :
    Written :=
  .standard ⟨success, errorCode, errorSubcode, message⟩

/-! ## The header builder and the handler -/

/-- The layout that `userRequestToAssertion` passes to `time.Parse`. -/
def sinceLayout : String := "YYYY-MM-DDThh:mm:ssZ00:00"

/-- The instant that `userRequestToAssertion` takes for `since`: the parsed value, or
the clock when `time.Parse` returns an error. -/
def sinceOf (now : Time) (since : String) : Time :=
  match Parse sinceLayout since with
  | .ok t => t
  | _ => now

/-- The function `userRequestToAssertion`, with the calls it makes. -/
def userRequestToAssertion {σ : Type} (env : Environ σ) (user : SystemUserRequest)
    (model : Model) : Headers × List Call :=
  match env.GenerateRandomString 32 with
  | .error e =>
    ([], [.GenerateRandomString 32, .Message "USER" "generate-assertion" e])
  | .ok randomText =>
    let baseSalt := ReplaceAllString randomText ""
    -- encrypt the password
    let salt := "$6$" ++ baseSalt ++ "$"
    let password := env.CLibCryptUser user.Password salt
    -- the since and end date/times
    let since := sinceOf env.Now user.Since
    let until_ := since.Add oneYearDuration
    ([("type", .str env.SystemUserTypeName),
      ("revision", .str userAssertionRevision),
      ("authority-id", .str model.AuthorityIDUser),
      ("brand-id", .str model.AuthorityIDUser),
      ("email", .str user.Email),
      ("name", .str user.Name),
      ("username", .str user.Username),
      ("password", .str password),
      ("models", .list [model.Name]),
      ("series", .list [env.Series]),
      ("since", .str since.FormatRFC3339),
      ("until", .str until_.FormatRFC3339),
      ("sign-key-sha3-384", .str model.KeyIDUser)],
     [.GenerateRandomString 32, .CLibCryptUser user.Password salt] ++
       (match Parse sinceLayout user.Since with
        | .ok _ => []
        | _ => [.Now]))

/-- The handler `SystemUserAssertion`: what it writes, and the calls it makes to its
collaborators, in order. -/
def SystemUserAssertion {σ : Type} (env : Environ σ) (body : String) : Written × List Call :=
  match env.Decode body with
  | .eof =>
    (FormatStandardResponse false "error-user-data" "" "No system-user data supplied",
     [.Decode body])
  | .failed msg =>
    (FormatStandardResponse false "error-decode-json" "" msg, [.Decode body])
  | .ok user =>
    match env.GetAllowedModel user.ModelID with
    | .error _ =>
      (FormatStandardResponse false "invalid-model" "" "Cannot find model with the selected ID",
       [.Decode body, .GetAllowedModel user.ModelID,
        .Message "USER" "invalid-model" "Cannot find model with the selected ID"])
    | .ok model =>
      if !model.KeyActiveUser then
        (FormatStandardResponse false "invalid-model" ""
           "The model is linked with an inactive signing-key",
         [.Decode body, .GetAllowedModel user.ModelID,
          .Message "USER" "invalid-model" "The model is linked with an inactive signing-key"])
      else
        match env.GetAccount model.AuthorityIDUser with
        | .error e =>
          (FormatStandardResponse false "account-assertions" ""
             "Error retrieving the account assertion from the database",
           [.Decode body, .GetAllowedModel user.ModelID, .GetAccount model.AuthorityIDUser,
            .Message "USER" "account-assertions" e])
        | .ok account =>
          let built := userRequestToAssertion env user model
          let calls := [.Decode body, .GetAllowedModel user.ModelID,
            .GetAccount model.AuthorityIDUser] ++ built.2 ++
            [.SignAssertion env.SystemUserTypeName built.1 model.AuthorityIDUser
               model.KeyIDUser model.SealedKeyUser]
          match env.SignAssertion env.SystemUserTypeName built.1 model.AuthorityIDUser
              model.KeyIDUser model.SealedKeyUser with
          | .error e =>
            (FormatStandardResponse false "signing-assertion" "" e,
             calls ++ [.Message "USER" "signing-assertion" e])
          | .ok signedAssertion =>
            let serializedAssertion := env.Encode signedAssertion
            let composite := account.Assertion ++ "\n" ++ model.AssertionUser ++ "\n" ++
              serializedAssertion
            (.systemUser ⟨true, "", "", "", composite⟩, calls ++ [.Encode])

/-! ## Reading the results -/

/-- The place of a collaborator in the pipeline of the handler: decoder 1, model lookup
2, account lookup 3, the calls of the header builder 4, signer 5, encoder 6. Log
messages are not a step and have place 0. -/
def Call.rank : Call → Nat
  | .Message _ _ _ => 0
  | .Decode _ => 1
  | .GetAllowedModel _ => 2
  | .GetAccount _ => 3
  | .GenerateRandomString _ => 4
  | .CLibCryptUser _ _ => 4
  | .Now => 4
  | .SignAssertion _ _ _ _ _ => 5
  | .Encode => 6

/-- The function `daysIn`: the number of days of a month; `leap` is the value of
`isLeap(year)`. -/
def daysIn (m : Nat) (leap : Bool) : Nat :=
  if m = 2 ∧ leap = true then 29
  else daysBefore.getD m 0 - daysBefore.getD (m - 1) 0

/-- The value of a decimal digit. -/
def digitValue (c : Char) : Option Nat :=
  if '0' ≤ c ∧ c ≤ '9' then some (c.toNat - 48) else Option.none

/-- The value of a string of decimal digits, after the value `acc` of the digits
already read. -/
def digitsValue : Nat → List Char → Option Nat
  | acc, [] => some acc
  | acc, c :: cs =>
    match digitValue c with
    | some v => digitsValue (10 * acc + v) cs
    | Option.none => Option.none

/-- The instant, in seconds since the Unix epoch, that a timestamp of RFC 3339 in UTC
and without fraction denotes: `YYYY-MM-DDThh:mm:ssZ` with a month from 01 to 12, a day
of that month, an hour up to 23 and minutes and seconds up to 59. The seconds are
counted from the fields by `Date`. -/
def instantOfRFC3339 (s : String) : Option Int :=
  match s.data with
  | [y1, y2, y3, y4, c1, m1, m2, c2, d1, d2, c3, h1, h2, c4, n1, n2, c5, s1, s2, c6] =>
    if c1 = '-' ∧ c2 = '-' ∧ c3 = 'T' ∧ c4 = ':' ∧ c5 = ':' ∧ c6 = 'Z' then
      match digitsValue 0 [y1, y2, y3, y4], digitsValue 0 [m1, m2], digitsValue 0 [d1, d2],
        digitsValue 0 [h1, h2], digitsValue 0 [n1, n2], digitsValue 0 [s1, s2] with
      | some y, some m, some d, some h, some n, some sec =>
        if 1 ≤ m ∧ m ≤ 12 ∧ 1 ≤ d ∧ d ≤ daysIn m (isLeap y) ∧ h ≤ 23 ∧ n ≤ 59 ∧ sec ≤ 59 then
          some (Date y m d h n sec 0).sec
        else Option.none
      | _, _, _, _, _, _ => Option.none
    else Option.none
  | _ => Option.none

/-- A value of the clock: nanoseconds within the second, and a second of the years
0000 to 9998, so that the instant one year later is still written with four digits. -/
def clockInRange (t : Time) : Prop :=
  0 ≤ t.nsec ∧ t.nsec < 1000000000 ∧ -62167219200 ≤ t.sec ∧ t.sec ≤ 253370764799

instance (t : Time) : Decidable (clockInRange t) := by
  unfold clockInRange; infer_instance

/-- An environment for the examples. The body `""` is empty, `"bad"` does not decode,
`"model6"` to `"model9"` ask for those models with an empty `since`, and any other body
asks for model 5 with the body as `since`. Model 5 has an active user key, model 6 an
inactive one, model 8 an authority without account, model 9 a key that does not sign,
and there is no other model. The random string has characters outside the class, and the
clock reads 2020-01-01T00:00:00Z and 5 nanoseconds. -/
def demoEnv : Environ String where
  Decode := fun b =>
    if b = "" then .eof
    else if b = "bad" then .failed "unexpected end of JSON input"
    else if b = "model6" then .ok ⟨"a@b.com", "A B", "ab", "pw", 6, ""⟩
    else if b = "model7" then .ok ⟨"a@b.com", "A B", "ab", "pw", 7, ""⟩
    else if b = "model8" then .ok ⟨"a@b.com", "A B", "ab", "pw", 8, ""⟩
    else if b = "model9" then .ok ⟨"a@b.com", "A B", "ab", "pw", 9, ""⟩
    else .ok ⟨"a@b.com", "A B", "ab", "pw", 5, b⟩
  GetAllowedModel := fun i =>
    if i = 5 then .ok ⟨5, "m5", "auth", "key", true, "sealed", "MODELASSERT"⟩
    else if i = 6 then .ok ⟨6, "m6", "auth", "key", false, "sealed", "MODELASSERT"⟩
    else if i = 8 then .ok ⟨8, "m8", "auth8", "key", true, "sealed", "MODELASSERT"⟩
    else if i = 9 then .ok ⟨9, "m9", "auth", "badkey", true, "sealed", "MODELASSERT"⟩
    else .error "sql: no rows in result set"
  GetAccount := fun a => if a = "auth" then .ok ⟨"auth", "ACCT"⟩ else .error "db down"
  SignAssertion := fun _ _ _ keyID _ =>
    if keyID = "badkey" then .error "cannot sign" else .ok "SIGNED"
  Encode := id
  GenerateRandomString := fun _ => .ok "ab-_=c9=="
  CLibCryptUser := fun p s => p ++ "|" ++ s
  Now := ⟨1577836800, 5⟩
  SystemUserTypeName := "system-user"
  Series := "16"

/-- The environment `demoEnv` with a random source that fails. -/
def demoEnvNoRandom : Environ String :=
  { demoEnv with GenerateRandomString := fun _ => .error "no entropy" }

/-- The request that `demoEnv` decodes from a body `b` that asks for model 5. -/
def demoUser (b : String) : SystemUserRequest := ⟨"a@b.com", "A B", "ab", "pw", 5, b⟩

/-- Model 5 of `demoEnv`. -/
def demoModel : Model := ⟨5, "m5", "auth", "key", true, "sealed", "MODELASSERT"⟩

/-! ## Lemmas: the pattern, the layouts and the calendar -/

set_option maxRecDepth 1000000

theorem tmod_eq_zero_iff (a b : Int) : Int.tmod a b = 0 ↔ a % b = 0 := by
  constructor
  · intro h
    exact Int.emod_eq_zero_of_dvd (Int.dvd_of_tmod_eq_zero h)
  · intro h
    exact Int.tmod_eq_zero_of_dvd (Int.dvd_of_emod_eq_zero h)

theorem isLeap_iff (year : Int) :
    isLeap year = true ↔ (year % 4 = 0 ∧ (year % 100 ≠ 0 ∨ year % 400 = 0)) := by
  simp [isLeap, tmod_eq_zero_iff]

theorem replaceRuns_nil (b : Bool) (l : List Char) :
    replaceRuns [] b l = l.filter isAlnum := by
  induction l generalizing b with
  | nil => simp [replaceRuns]
  | cons c cs ih =>
    by_cases h : isAlnum c <;> simp [replaceRuns, inNegClass, h, ih]

theorem nextStdChunk_sinceLayout :
    nextStdChunk sinceLayout.data = (sinceLayout.data, Std.none, []) := by
  decide

theorem skip_literal (pre : List Char) (hp : ∀ c ∈ pre, c ≠ ' ') :
    ∀ (value : List Char) (fuel : Nat), pre.length < fuel →
      ∀ rest, skip value pre fuel = some rest ↔ value = pre ++ rest := by
  induction pre with
  | nil =>
    intro value fuel hf rest
    cases fuel with
    | zero => simp at hf
    | succ f => simp [skip, eq_comm]
  | cons p ps ih =>
    intro value fuel hf rest
    cases fuel with
    | zero => simp at hf
    | succ f =>
      have hp1 : p ≠ ' ' := hp p (by simp)
      have hps : ∀ c ∈ ps, c ≠ ' ' := fun c hc => hp c (by simp [hc])
      cases value with
      | nil => simp [skip, hp1]
      | cons v vs =>
        by_cases hv : v = p
        · subst hv
          simp [skip, hp1, ih hps vs f (by simpa using hf) rest]
        · simp [skip, hp1, hv]

theorem sinceLayout_noSpace : ∀ c ∈ sinceLayout.data, c ≠ ' ' := by decide

theorem Parse_sinceLayout (v : String) :
    Parse sinceLayout v =
      if v = sinceLayout then .ok (Date 0 1 1 0 0 0 0) else .parseError := by
  have hk := skip_literal sinceLayout.data sinceLayout_noSpace v.data
    (sinceLayout.data.length + 1) (Nat.lt_succ_self _)
  unfold Parse
  rw [nextStdChunk_sinceLayout]
  simp only
  cases hs : skip v.data sinceLayout.data (sinceLayout.data.length + 1) with
  | none =>
    have hne : v ≠ sinceLayout := by
      intro h
      have := (hk []).mpr (by simp [h])
      rw [hs] at this
      cases this
    simp [hne]
  | some rest =>
    have hv := (hk rest).mp hs
    by_cases hr : rest = []
    · subst hr
      have : v = sinceLayout := by
        apply String.ext
        simpa using hv
      simp [this]
    · have hne : v ≠ sinceLayout := by
        intro h
        rw [h] at hv
        have := congrArg List.length hv
        simp at this
        exact hr this
      simp [hne, hr]

theorem sinceOf_eq (now : Time) (v : String) :
    sinceOf now v = if v = sinceLayout then Date 0 1 1 0 0 0 0 else now := by
  unfold sinceOf
  rw [Parse_sinceLayout]
  by_cases h : v = sinceLayout <;> simp [h]

/-- The elements of the layout `time.RFC3339`, in order, as `nextStdChunk` finds them:
the ones that `Time.FormatRFC3339` writes. -/
theorem RFC3339_elements :
    nextStdChunk RFC3339.data = ([], .stdLongYear, "-01-02T15:04:05Z07:00".data) ∧
    nextStdChunk "-01-02T15:04:05Z07:00".data =
      ("-".data, .stdZeroMonth, "-02T15:04:05Z07:00".data) ∧
    nextStdChunk "-02T15:04:05Z07:00".data = ("-".data, .stdZeroDay, "T15:04:05Z07:00".data) ∧
    nextStdChunk "T15:04:05Z07:00".data = ("T".data, .stdHour, ":04:05Z07:00".data) ∧
    nextStdChunk ":04:05Z07:00".data = (":".data, .stdZeroMinute, ":05Z07:00".data) ∧
    nextStdChunk ":05Z07:00".data = (":".data, .stdZeroSecond, "Z07:00".data) ∧
    nextStdChunk "Z07:00".data = ([], .stdISO8601ColonTZ, []) := by
  decide

theorem cut400 (d0 n1 d1 : Nat) (h1 : n1 = d0 / 146097) (h2 : d1 = d0 - 146097 * n1) :
    d1 < 146097 ∧ d0 = 146097 * n1 + d1 := by
  omega

theorem cut100 (d1 q2 n2 d2 : Nat) (hd : d1 < 146097)
    (h3 : q2 = d1 / 36524) (h4 : n2 = q2 - q2 / 4) (h5 : d2 = d1 - 36524 * n2) :
    n2 ≤ 3 ∧ d2 ≤ 36524 ∧ d1 = 36524 * n2 + d2 ∧ (d2 = 36524 → n2 = 3) := by
  omega

theorem cut4 (d2 n3 d3 : Nat) (hd : d2 ≤ 36524)
    (h6 : n3 = d2 / 1461) (h7 : d3 = d2 - 1461 * n3) :
    n3 ≤ 24 ∧ d3 ≤ 1460 ∧ d2 = 1461 * n3 + d3 := by
  omega

theorem cut1 (d3 q4 n4 d4 : Nat) (hd : d3 ≤ 1460)
    (h8 : q4 = d3 / 365) (h9 : n4 = q4 - q4 / 4) (h10 : d4 = d3 - 365 * n4) :
    n4 ≤ 3 ∧ d4 ≤ 365 ∧ d3 = 365 * n4 + d4 ∧ (d4 = 365 → n4 = 3) := by
  omega

theorem year_join (n1 n2 n3 n4 y : Nat) (h2 : n2 ≤ 3) (h3 : n3 ≤ 24) (h4 : n4 ≤ 3)
    (hy : y = 400 * n1 + 100 * n2 + 4 * n3 + n4) :
    y / 400 = n1 ∧ y % 400 / 100 = n2 ∧ y % 100 / 4 = n3 ∧ y % 4 = n4 := by
  omega

/-- The counts of 400-year, 100-year and 4-year cycles and of years that `absYearDay`
finds, with the day of the year and the day count they stand for. -/
theorem absYearDay_spec (abs : Nat) :
    ∃ n1 n2 n3 n4 yday : Nat,
      absYearDay abs =
        (toInt64 (((400 * n1 + 100 * n2 + 4 * n3 + n4 : Nat) : Int) + absoluteZeroYear), yday) ∧
      n2 ≤ 3 ∧ n3 ≤ 24 ∧ n4 ≤ 3 ∧ yday ≤ 365 ∧
      (yday = 365 → n4 = 3 ∧ (n3 = 24 → n2 = 3)) ∧
      146097 * n1 + 36524 * n2 + 1461 * n3 + 365 * n4 + yday = abs / 86400 := by
  obtain ⟨d0, hd0⟩ : ∃ d0, d0 = abs / 86400 := ⟨_, rfl⟩
  obtain ⟨n1, h1⟩ : ∃ n1, n1 = d0 / 146097 := ⟨_, rfl⟩
  obtain ⟨d1, h2⟩ : ∃ d1, d1 = d0 - 146097 * n1 := ⟨_, rfl⟩
  obtain ⟨q2, h3⟩ : ∃ q2, q2 = d1 / 36524 := ⟨_, rfl⟩
  obtain ⟨n2, h4⟩ : ∃ n2, n2 = q2 - q2 / 4 := ⟨_, rfl⟩
  obtain ⟨d2, h5⟩ : ∃ d2, d2 = d1 - 36524 * n2 := ⟨_, rfl⟩
  obtain ⟨n3, h6⟩ : ∃ n3, n3 = d2 / 1461 := ⟨_, rfl⟩
  obtain ⟨d3, h7⟩ : ∃ d3, d3 = d2 - 1461 * n3 := ⟨_, rfl⟩
  obtain ⟨q4, h8⟩ : ∃ q4, q4 = d3 / 365 := ⟨_, rfl⟩
  obtain ⟨n4, h9⟩ : ∃ n4, n4 = q4 - q4 / 4 := ⟨_, rfl⟩
  obtain ⟨d4, h10⟩ : ∃ d4, d4 = d3 - 365 * n4 := ⟨_, rfl⟩
  have c1 := cut400 d0 n1 d1 h1 h2
  have c2 := cut100 d1 q2 n2 d2 c1.1 h3 h4 h5
  have c3 := cut4 d2 n3 d3 c2.2.1 h6 h7
  have c4 := cut1 d3 q4 n4 d4 c3.2.1 h8 h9 h10
  have hval : absYearDay abs =
      (toInt64 (((400 * n1 + 100 * n2 + 4 * n3 + n4 : Nat) : Int) + absoluteZeroYear), d4) := by
    subst hd0 h1 h2 h3 h4 h5 h6 h7 h8 h9 h10
    rfl
  refine ⟨n1, n2, n3, n4, d4, hval, c2.1, c3.1, c4.1, c4.2.1, ?_, ?_⟩
  · intro h
    refine ⟨c4.2.2.2 h, ?_⟩
    intro h3
    apply c2.2.2.2
    omega
  · omega

set_option maxRecDepth 100000 in
theorem monthDay_core : ∀ leap : Bool, ∀ yday : Fin 366, (yday.val = 365 → leap = true) →
    1 ≤ (monthDay leap yday.val).1 ∧ (monthDay leap yday.val).1 ≤ 12 ∧
    1 ≤ (monthDay leap yday.val).2 ∧
    (monthDay leap yday.val).2 ≤ daysIn (monthDay leap yday.val).1 leap ∧
    daysBefore.getD ((monthDay leap yday.val).1 - 1) 0
      + (if leap && decide ((monthDay leap yday.val).1 ≥ 3) then 1 else 0)
      + ((monthDay leap yday.val).2 - 1) = yday.val := by
  decide

theorem toUint64_eq (x : Int) : toUint64 x = x % 18446744073709551616 := by
  unfold toUint64; norm_num

theorem toInt64_eq (x : Int) :
    toInt64 x = (x + 9223372036854775808) % 18446744073709551616 - 9223372036854775808 := by
  unfold toInt64; norm_num

theorem toInt64_of_range (x : Int) (h1 : -9223372036854775808 ≤ x)
    (h2 : x < 9223372036854775808) : toInt64 x = x := by
  rw [toInt64_eq]; omega

theorem toInt64_uint_add (a b : Int) : toInt64 (toInt64 (toUint64 a) + b) = toInt64 (a + b) := by
  simp only [toInt64_eq, toUint64_eq]; omega

theorem toUint64_add_uint (a b : Int) : toUint64 (a + toUint64 b) = toUint64 (a + b) := by
  simp only [toUint64_eq]; omega

theorem toUint64_uint_add (a b : Int) : toUint64 (toUint64 a + b) = toUint64 (a + b) := by
  simp only [toUint64_eq]; omega

theorem toUint64_uint_mul (a c : Int) : toUint64 (toUint64 a * c) = toUint64 (a * c) := by
  unfold toUint64
  rw [Int.mul_emod, Int.emod_emod, ← Int.mul_emod]

theorem toInt64_uu (a b k : Int) :
    toInt64 (toUint64 a + toUint64 b + k) = toInt64 (a + b + k) := by
  simp only [toInt64_eq, toUint64_eq]; omega

theorem norm_id (hi lo base : Int) (h0 : 0 ≤ lo) (h1 : lo < base) : norm hi lo base = (hi, lo) := by
  have h2 : ¬ lo < 0 := by omega
  have h3 : ¬ lo ≥ base := by omega
  simp [norm, h2, h3]

theorem Date_sec (y m d h mi s : Nat) (hy : y < 2 ^ 48) (hm : 1 ≤ m) (hm2 : m ≤ 12)
    (hh : h < 24) (hmi : mi < 60) (hs : s < 60) :
    Date (toInt64 ((y : Int) + absoluteZeroYear)) m d h mi s 0 =
      ⟨toInt64 (((146097 * (y / 400) + 36524 * (y % 400 / 100) + 1461 * (y % 100 / 4)
          + 365 * (y % 4) + daysBefore.getD (m - 1) 0
          + (if isLeap (toInt64 ((y : Int) + absoluteZeroYear)) && decide (m ≥ 3) then 1 else 0) : Nat) + ((d : Int) - 1)) * 86400
          + (h * 3600 + mi * 60 + s : Nat) + (absoluteToInternal + internalToUnix)), 0⟩ := by
  have hyr : toInt64 ((y : Int) + absoluteZeroYear) = (y : Int) + absoluteZeroYear := by
    apply toInt64_of_range <;> simp only [absoluteZeroYear] <;> norm_num at hy ⊢ <;> omega
  have hyu : toUint64 ((y : Int) + absoluteZeroYear - absoluteZeroYear) = y := by
    rw [toUint64_eq]; norm_num at hy ⊢; omega
  have hmt : ((m : Int) - 1 + 1 - 1).toNat = m - 1 := by omega
  have hm3 : ((m : Int) - 1 + 1 ≥ 3) ↔ m ≥ 3 := by omega
  rw [hyr]
  have n0 : norm ((y : Int) + absoluteZeroYear) ((m : Int) - 1) 12
      = ((y : Int) + absoluteZeroYear, (m : Int) - 1) := norm_id _ _ _ (by omega) (by omega)
  have n1 : norm (s : Int) 0 1000000000 = ((s : Int), 0) := norm_id _ _ _ (by omega) (by omega)
  have n2 : norm (mi : Int) (s : Int) 60 = ((mi : Int), (s : Int)) := norm_id _ _ _ (by omega) (by omega)
  have n3 : norm (h : Int) (mi : Int) 60 = ((h : Int), (mi : Int)) := norm_id _ _ _ (by omega) (by omega)
  have n4 : norm (d : Int) (h : Int) 24 = ((d : Int), (h : Int)) := norm_id _ _ _ (by omega) (by omega)
  simp only [Date, n0, n1, n2, n3, n4, hyu, hmt, hm3, secondsPerDay, secondsPerHour,
    secondsPerMinute, daysPer400Years, daysPer100Years, daysPer4Years]
  congr 1
  simp only [toInt64_uint_add, toUint64_add_uint, toUint64_uint_add, toUint64_uint_mul, toInt64_uu]
  generalize (isLeap ((y : Int) + absoluteZeroYear) && decide (m ≥ 3)) = lf
  generalize daysBefore.getD (m - 1) 0 = db
  congr 1
  cases lf <;> simp only [if_true, if_false, Bool.false_eq_true] <;> push_cast <;> omega

theorem digitValue_digit : ∀ k : Fin 10, digitValue (Char.ofNat (48 + k.val)) = some k.val := by
  decide

theorem digitValue_digit_nat (k : Nat) (h : k < 10) :
    digitValue (Char.ofNat (48 + k)) = some k := digitValue_digit ⟨k, h⟩

theorem decimal_one (f u : Nat) (h : u < 10) : decimal f u = [Char.ofNat (48 + u)] := by
  cases f with
  | zero => simp [decimal, Nat.mod_eq_of_lt h]
  | succ f =>
    have : ¬ u ≥ 10 := by omega
    simp [decimal, this]

theorem decimal_step (f u : Nat) (h : 10 ≤ u) :
    decimal (f + 1) u = decimal f (u / 10) ++ [Char.ofNat (48 + u % 10)] := by
  simp [decimal, h]

/-- The two characters that `appendInt` writes for a value below 100 at width 2, and
the number they spell. -/
theorem appendInt_two (x : Nat) (h : x < 100) :
    ∃ a b : Char, appendInt (x : Int) 2 = [a, b] ∧ digitsValue 0 [a, b] = some x := by
  refine ⟨Char.ofNat (48 + x / 10), Char.ofNat (48 + x % 10), ?_, ?_⟩
  · have hneg : ¬ ((x : Int) < 0) := by omega
    by_cases h10 : x < 10
    · have h0 : x / 10 = 0 := by omega
      have h1 : x % 10 = x := by omega
      simp [appendInt, decimal_one _ _ h10, h0, h1, List.replicate]
    · have hq : x / 10 < 10 := by omega
      simp [appendInt, decimal_step 18 x (by omega), decimal_one _ _ hq]
  · simp [digitsValue, digitValue_digit_nat (x / 10) (by omega),
      digitValue_digit_nat (x % 10) (by omega)]
    omega

/-- The four characters that `appendInt` writes for a year from 0 to 9999 at width 4,
and the number they spell. -/
theorem appendInt_four (x : Nat) (h : x < 10000) :
    ∃ a b c d : Char, appendInt (x : Int) 4 = [a, b, c, d] ∧
      digitsValue 0 [a, b, c, d] = some x := by
  refine ⟨Char.ofNat (48 + x / 1000), Char.ofNat (48 + x / 100 % 10),
    Char.ofNat (48 + x / 10 % 10), Char.ofNat (48 + x % 10), ?_, ?_⟩
  · have hneg : ¬ ((x : Int) < 0) := by omega
    by_cases h10 : x < 10
    · have h0 : x / 1000 = 0 := by omega
      have h1 : x / 100 % 10 = 0 := by omega
      have h2 : x / 10 % 10 = 0 := by omega
      have h3 : x % 10 = x := by omega
      simp [appendInt, decimal_one _ _ h10, h0, h1, h2, h3, List.replicate]
    · by_cases h100 : x < 100
      · have h0 : x / 1000 = 0 := by omega
        have h1 : x / 100 % 10 = 0 := by omega
        have h2 : x / 10 % 10 = x / 10 := by omega
        have hq : x / 10 < 10 := by omega
        simp [appendInt, decimal_step 18 x (by omega), decimal_one _ _ hq, h0, h1, h2,
          List.replicate]
      · by_cases h1000 : x < 1000
        · have h0 : x / 1000 = 0 := by omega
          have h1 : x / 100 % 10 = x / 10 / 10 := by omega
          have hq : x / 10 / 10 < 10 := by omega
          simp [appendInt, decimal_step 18 x (by omega), decimal_step 17 (x / 10) (by omega),
            decimal_one _ _ hq, h0, h1, List.replicate]
        · have h0 : x / 1000 = x / 10 / 10 / 10 := by omega
          have h1 : x / 100 % 10 = x / 10 / 10 % 10 := by omega
          have hq : x / 10 / 10 / 10 < 10 := by omega
          simp [appendInt, decimal_step 18 x (by omega), decimal_step 17 (x / 10) (by omega),
            decimal_step 16 (x / 10 / 10) (by omega), decimal_one _ _ hq, h0, h1]
  · simp [digitsValue, digitValue_digit_nat (x / 1000) (by omega),
      digitValue_digit_nat (x / 100 % 10) (by omega),
      digitValue_digit_nat (x / 10 % 10) (by omega),
      digitValue_digit_nat (x % 10) (by omega)]
    omega

theorem absClock_spec (abs : Nat) :
    (absClock abs).1 < 24 ∧ (absClock abs).2.1 < 60 ∧ (absClock abs).2.2 < 60 ∧
    (absClock abs).1 * 3600 + (absClock abs).2.1 * 60 + (absClock abs).2.2 = abs % 86400 := by
  simp only [absClock, secondsPerDay, secondsPerHour, secondsPerMinute]
  omega

theorem isLeap_shift (y : Nat) (hy : y < 2 ^ 48) :
    isLeap (toInt64 ((y : Int) + absoluteZeroYear)) = true ↔
      ((y + 1) % 4 = 0 ∧ ((y + 1) % 100 ≠ 0 ∨ (y + 1) % 400 = 0)) := by
  have hyr : toInt64 ((y : Int) + absoluteZeroYear) = (y : Int) + absoluteZeroYear := by
    apply toInt64_of_range <;> simp only [absoluteZeroYear] <;> norm_num at hy ⊢ <;> omega
  rw [hyr, isLeap_iff]
  simp only [absoluteZeroYear]
  omega

/-- The fields that `absDate` and `absClock` find for an absolute time are in range,
and `Date` counts the same absolute time from them. -/
theorem Date_absDate (abs : Nat) (habs : abs < 2 ^ 64) :
    1 ≤ (absDate abs).2.1 ∧ (absDate abs).2.1 ≤ 12 ∧ 1 ≤ (absDate abs).2.2 ∧
    (absDate abs).2.2 ≤ daysIn (absDate abs).2.1 (isLeap (absDate abs).1) ∧
    Date (absDate abs).1 (absDate abs).2.1 (absDate abs).2.2
        (absClock abs).1 (absClock abs).2.1 (absClock abs).2.2 0 =
      ⟨toInt64 ((abs : Int) + (absoluteToInternal + internalToUnix)), 0⟩ := by
  obtain ⟨n1, n2, n3, n4, yday, hval, b2, b3, b4, h365, hleap, hdays⟩ := absYearDay_spec abs
  obtain ⟨y, hydef⟩ : ∃ y, y = 400 * n1 + 100 * n2 + 4 * n3 + n4 := ⟨_, rfl⟩
  rw [← hydef] at hval
  have cj := year_join n1 n2 n3 n4 y b2 b3 b4 hydef
  have hy : y < 2 ^ 48 := by
    norm_num at habs ⊢
    omega
  have hl : yday = 365 → isLeap (toInt64 ((y : Int) + absoluteZeroYear)) = true := by
    intro h
    obtain ⟨h4, h24⟩ := hleap h
    apply (isLeap_shift y hy).mpr
    by_cases h3 : n3 = 24
    · have := h24 h3
      omega
    · omega
  have hmd := monthDay_core (isLeap (toInt64 ((y : Int) + absoluteZeroYear)))
    ⟨yday, by omega⟩ hl
  obtain ⟨hc1, hc2, hc3, hc4⟩ := absClock_spec abs
  simp only [absDate, hval]
  simp only at hmd
  obtain ⟨m1, m12, d1, dIn, hsum⟩ := hmd
  refine ⟨m1, m12, d1, dIn, ?_⟩
  rw [Date_sec y _ _ _ _ _ hy m1 m12 hc1 hc2 hc3, cj.1, cj.2.1, cj.2.2.1, cj.2.2.2]
  congr 2
  generalize (monthDay (isLeap (toInt64 ((y : Int) + absoluteZeroYear))) yday).1 = m at *
  generalize (monthDay (isLeap (toInt64 ((y : Int) + absoluteZeroYear))) yday).2 = d at *
  generalize (isLeap (toInt64 ((y : Int) + absoluteZeroYear)) && decide (m ≥ 3)) = lf at *
  generalize daysBefore.getD (m - 1) 0 = db at *
  generalize (absClock abs).1 = h at *
  generalize (absClock abs).2.1 = mi at *
  generalize (absClock abs).2.2 = s at *
  cases lf <;> simp only [if_true, if_false, Bool.false_eq_true] at hsum ⊢ <;> push_cast <;> omega

theorem abs_of_range (t : Time) (hlo : -9223372028715321600 ≤ t.sec)
    (hhi : t.sec < 9223372044994230016) :
    (t.abs : Int) = t.sec + 9223372028715321600 ∧ t.abs < 2 ^ 64 := by
  have h1 : (toUint64 (t.sec + (unixToInternal + internalToAbsolute))) =
      t.sec + 9223372028715321600 := by
    rw [toUint64_eq]
    simp only [unixToInternal, internalToAbsolute, absoluteToInternal, absoluteZeroYear,
      internalYear]
    norm_num
    omega
  unfold Time.abs
  rw [h1]
  constructor
  · omega
  · norm_num
    omega

theorem year_low (n1 n2 n3 n4 yday d0 : Nat) (b2 : n2 ≤ 3) (b3 : n3 ≤ 24) (b4 : n4 ≤ 3)
    (h365 : yday ≤ 365) (hleap : yday = 365 → n4 = 3 ∧ (n3 = 24 → n2 = 3))
    (hdays : 146097 * n1 + 36524 * n2 + 1461 * n3 + 365 * n4 + yday = d0)
    (hd0 : 106751990353566 ≤ d0) :
    292277022399 ≤ 400 * n1 + 100 * n2 + 4 * n3 + n4 := by
  rcases Nat.lt_trichotomy n1 730692555 with h | h | h
  · omega
  · by_cases h5 : yday = 365
    · obtain ⟨h4, h24⟩ := hleap h5
      by_cases h3 : n3 = 24
      · have := h24 h3
        omega
      · omega
    · omega
  · omega

theorem year_high (n1 n2 n3 n4 yday d0 : Nat) (b2 : n2 ≤ 3) (b3 : n3 ≤ 24) (b4 : n4 ≤ 3)
    (hdays : 146097 * n1 + 36524 * n2 + 1461 * n3 + 365 * n4 + yday = d0)
    (hd0 : d0 ≤ 106751994005990) :
    400 * n1 + 100 * n2 + 4 * n3 + n4 ≤ 292277032398 := by
  rcases Nat.lt_trichotomy n1 730692580 with h | h | h
  · omega
  · omega
  · omega

theorem absDate_year_range (abs : Nat) (hlo : 9223371966548102400 ≤ abs)
    (hhi : abs ≤ 9223372282117622399) :
    ∃ yr : Nat, yr < 10000 ∧ (absDate abs).1 = (yr : Int) := by
  obtain ⟨n1, n2, n3, n4, yday, hval, b2, b3, b4, h365, hleap, hdays⟩ := absYearDay_spec abs
  have hd1 : 106751990353566 ≤ abs / 86400 := by omega
  have hd2 : abs / 86400 ≤ 106751994005990 := by omega
  have hlow := year_low n1 n2 n3 n4 yday _ b2 b3 b4 h365 hleap hdays hd1
  have hup := year_high n1 n2 n3 n4 yday _ b2 b3 b4 hdays hd2
  obtain ⟨y, hydef⟩ : ∃ y, y = 400 * n1 + 100 * n2 + 4 * n3 + n4 := ⟨_, rfl⟩
  rw [← hydef] at hval hlow hup
  have hyr : toInt64 ((y : Int) + absoluteZeroYear) = (y : Int) + absoluteZeroYear := by
    apply toInt64_of_range <;> simp only [absoluteZeroYear] <;> omega
  refine ⟨y - 292277022399, by omega, ?_⟩
  simp only [absDate, hval]
  rw [hyr]
  simp only [absoluteZeroYear]
  omega

/-- The timestamp that `Format` writes for an instant of the years 0000 to 9999
denotes the second of that instant. -/
theorem instantOfRFC3339_Format (t : Time) (hlo : -62167219200 ≤ t.sec)
    (hhi : t.sec ≤ 253402300799) :
    instantOfRFC3339 t.FormatRFC3339 = some t.sec := by
  obtain ⟨habs, hlt⟩ := abs_of_range t (by omega) (by omega)
  obtain ⟨yr, hyr, hyeq⟩ := absDate_year_range t.abs (by omega) (by omega)
  obtain ⟨m1, m12, d1, dIn, hdate⟩ := Date_absDate t.abs hlt
  obtain ⟨hc1, hc2, hc3, _⟩ := absClock_spec t.abs
  have hd31 : (absDate t.abs).2.2 < 100 := by
    have : daysIn (absDate t.abs).2.1 (isLeap (absDate t.abs).1) ≤ 31 := by
      generalize (absDate t.abs).2.1 = m at m1 m12
      generalize isLeap (absDate t.abs).1 = lf
      interval_cases m <;> cases lf <;> decide
    omega
  obtain ⟨y1, y2, y3, y4, hy, hyv⟩ := appendInt_four yr hyr
  obtain ⟨a1, a2, ha, hav⟩ := appendInt_two (absDate t.abs).2.1 (by omega)
  obtain ⟨b1, b2, hb, hbv⟩ := appendInt_two (absDate t.abs).2.2 hd31
  obtain ⟨e1, e2, he, hev⟩ := appendInt_two (absClock t.abs).1 (by omega)
  obtain ⟨f1, f2, hf, hfv⟩ := appendInt_two (absClock t.abs).2.1 (by omega)
  obtain ⟨g1, g2, hg, hgv⟩ := appendInt_two (absClock t.abs).2.2 (by omega)
  have hfin : toInt64 ((t.abs : Int) + (absoluteToInternal + internalToUnix)) = t.sec := by
    rw [habs]
    simp only [absoluteToInternal, internalToUnix, unixToInternal, absoluteZeroYear, internalYear]
    norm_num
    apply toInt64_of_range <;> omega
  have hfmt : t.FormatRFC3339 = String.mk [y1, y2, y3, y4, '-', a1, a2, '-', b1, b2, 'T',
      e1, e2, ':', f1, f2, ':', g1, g2, 'Z'] := by
    simp only [Time.FormatRFC3339, hyeq, hy, ha, hb, he, hf, hg]
    rfl
  rw [hfmt]
  rw [hyeq] at hdate dIn
  have hrange : 1 ≤ (absDate t.abs).2.1 ∧ (absDate t.abs).2.1 ≤ 12 ∧ 1 ≤ (absDate t.abs).2.2 ∧
      (absDate t.abs).2.2 ≤ daysIn (absDate t.abs).2.1 (isLeap (yr : Int)) ∧
      (absClock t.abs).1 ≤ 23 ∧ (absClock t.abs).2.1 ≤ 59 ∧ (absClock t.abs).2.2 ≤ 59 :=
    ⟨m1, m12, d1, dIn, by omega, by omega, by omega⟩
  simp only [instantOfRFC3339, hyv, hav, hbv, hev, hfv, hgv, and_self, if_true, hrange]
  rw [hdate, hfin]

theorem oneYearDuration_eq : oneYearDuration = 31536000 * 1000000000 := by decide

theorem Add_oneYear (t : Time) (h0 : 0 ≤ t.nsec) (h1 : t.nsec < 1000000000)
    (hlo : -9223372036854775808 ≤ t.sec + 31536000)
    (hhi : t.sec + 31536000 < 9223372036854775808) :
    t.Add oneYearDuration = ⟨t.sec + 31536000, t.nsec⟩ := by
  have hd : Int.tdiv oneYearDuration 1000000000 = 31536000 := by decide
  have hm : Int.tmod oneYearDuration 1000000000 = 0 := by decide
  have c1 : ¬ (t.nsec + 0 ≥ 1000000000) := by omega
  have c2 : ¬ (t.nsec + 0 < 0) := by omega
  simp only [Time.Add, hd, hm, c1, c2, if_false]
  rw [toInt64_of_range _ hlo hhi]
  simp

set_option maxRecDepth 100000 in
theorem Date_zero : Date 0 1 1 0 0 0 0 = ⟨-62167219200, 0⟩ := by decide

/-- The headers that the builder returns when the random source succeeds. -/
theorem userRequestToAssertion_ok {σ : Type} (env : Environ σ) (user : SystemUserRequest)
    (model : Model) (r : String) (hr : env.GenerateRandomString 32 = .ok r) :
    (userRequestToAssertion env user model).1 =
      [("type", .str env.SystemUserTypeName),
       ("revision", .str userAssertionRevision),
       ("authority-id", .str model.AuthorityIDUser),
       ("brand-id", .str model.AuthorityIDUser),
       ("email", .str user.Email),
       ("name", .str user.Name),
       ("username", .str user.Username),
       ("password", .str (env.CLibCryptUser user.Password
          ("$6$" ++ ReplaceAllString r "" ++ "$"))),
       ("models", .list [model.Name]),
       ("series", .list [env.Series]),
       ("since", .str (sinceOf env.Now user.Since).FormatRFC3339),
       ("until", .str ((sinceOf env.Now user.Since).Add oneYearDuration).FormatRFC3339),
       ("sign-key-sha3-384", .str model.KeyIDUser)] := by
  simp only [userRequestToAssertion, hr]

theorem lookup_since {σ : Type} (env : Environ σ) (user : SystemUserRequest)
    (model : Model) (r : String) (hr : env.GenerateRandomString 32 = .ok r) :
    (userRequestToAssertion env user model).1.lookup "since" =
      some (.str (sinceOf env.Now user.Since).FormatRFC3339) ∧
    (userRequestToAssertion env user model).1.lookup "until" =
      some (.str ((sinceOf env.Now user.Since).Add oneYearDuration).FormatRFC3339) := by
  rw [userRequestToAssertion_ok env user model r hr]
  constructor <;> rfl

theorem clockInRange_sinceOf (now : Time) (v : String) (h : clockInRange now) :
    clockInRange (sinceOf now v) := by
  rw [sinceOf_eq]
  by_cases hv : v = sinceLayout
  · simp only [hv, if_true, Date_zero]
    decide
  · simpa [hv] using h

theorem builder_calls_rank {σ : Type} (env : Environ σ) (user : SystemUserRequest)
    (model : Model) : ∀ c ∈ (userRequestToAssertion env user model).2, c.rank ≤ 4 := by
  intro c hc
  unfold userRequestToAssertion at hc
  cases hr : env.GenerateRandomString 32 with
  | error e2 =>
    simp [hr] at hc
    rcases hc with h | h <;> subst h <;> simp [Call.rank]
  | ok r =>
    cases hp : Parse sinceLayout user.Since <;> simp [hr, hp] at hc
    · rcases hc with h | h <;> subst h <;> simp [Call.rank]
    · rcases hc with h | h | h <;> subst h <;> simp [Call.rank]
    · rcases hc with h | h | h <;> subst h <;> simp [Call.rank]

/-! ## The claims -/

/-- Claim C1: when the body decodes, the model has an active user key, and the account
lookup and the signing call succeed, the handler answers success with an assertion that
is the account assertion, a newline, the user assertion of the model, a newline and the
encoded signed assertion, and nothing else. -/
theorem composite_is_three_parts_in_order {σ : Type} (env : Environ σ) (body : String)
    (user : SystemUserRequest) (model : Model) (account : Account) (signed : σ)
    (hd : env.Decode body = .ok user)
    (hm : env.GetAllowedModel user.ModelID = .ok model)
    (hk : model.KeyActiveUser = true)
    (ha : env.GetAccount model.AuthorityIDUser = .ok account)
    (hs : env.SignAssertion env.SystemUserTypeName (userRequestToAssertion env user model).1
      model.AuthorityIDUser model.KeyIDUser model.SealedKeyUser = .ok signed) :
    (SystemUserAssertion env body).1.success = true ∧
    (SystemUserAssertion env body).1.assertion =
      some (account.Assertion ++ "\n" ++ model.AssertionUser ++ "\n" ++ env.Encode signed) ∧
    (account.Assertion ++ "\n" ++ model.AssertionUser ++ "\n" ++ env.Encode signed).data =
      account.Assertion.data ++ "\n".data ++ model.AssertionUser.data ++ "\n".data
        ++ (env.Encode signed).data := by
  simp [SystemUserAssertion, hd, hm, hk, ha, hs, Written.success, Written.assertion]

/-- An instance of the preceding theorem in the example environment. -/
theorem composite_is_three_parts_in_order_witness :
    (SystemUserAssertion demoEnv "x").1.success = true ∧
    (SystemUserAssertion demoEnv "x").1.assertion = some "ACCT\nMODELASSERT\nSIGNED" ∧
    ("ACCT" ++ "\n" ++ "MODELASSERT" ++ "\n" ++ "SIGNED").data =
      "ACCT".data ++ "\n".data ++ "MODELASSERT".data ++ "\n".data ++ "SIGNED".data :=
  composite_is_three_parts_in_order demoEnv "x" (demoUser "x") demoModel ⟨"auth", "ACCT"⟩
    "SIGNED" rfl rfl rfl rfl rfl

/-- Claim C2: when the body decodes and the model has no active user key, the handler
answers unsuccessful with code invalid-model and the message of the inactive signing
key, and it calls nothing after the model lookup: no account lookup, no header builder,
no signer. -/
theorem inactive_key_is_rejected_before_signing {σ : Type} (env : Environ σ) (body : String)
    (user : SystemUserRequest) (model : Model)
    (hd : env.Decode body = .ok user)
    (hm : env.GetAllowedModel user.ModelID = .ok model)
    (hk : model.KeyActiveUser = false) :
    (SystemUserAssertion env body).1 = .standard ⟨false, "invalid-model", "",
      "The model is linked with an inactive signing-key"⟩ ∧
    (SystemUserAssertion env body).1.success = false ∧
    (SystemUserAssertion env body).1.errorCode = "invalid-model" ∧
    (SystemUserAssertion env body).1.message =
      "The model is linked with an inactive signing-key" ∧
    (SystemUserAssertion env body).2 = [.Decode body, .GetAllowedModel user.ModelID,
      .Message "USER" "invalid-model" "The model is linked with an inactive signing-key"] ∧
    (∀ c ∈ (SystemUserAssertion env body).2, c.rank ≤ 2) ∧
    (∀ t h a k s, Call.SignAssertion t h a k s ∉ (SystemUserAssertion env body).2) := by
  simp [SystemUserAssertion, hd, hm, hk, FormatStandardResponse, Written.success,
    Written.errorCode, Written.message, Call.rank]

/-- An instance of the preceding theorem in the example environment. -/
theorem inactive_key_is_rejected_before_signing_witness :
    (SystemUserAssertion demoEnv "model6").1 = .standard ⟨false, "invalid-model", "",
      "The model is linked with an inactive signing-key"⟩ ∧
    (SystemUserAssertion demoEnv "model6").2 = [.Decode "model6", .GetAllowedModel 6,
      .Message "USER" "invalid-model" "The model is linked with an inactive signing-key"] :=
  have h := inactive_key_is_rejected_before_signing demoEnv "model6"
    ⟨"a@b.com", "A B", "ab", "pw", 6, ""⟩
    ⟨6, "m6", "auth", "key", false, "sealed", "MODELASSERT"⟩ rfl rfl rfl
  ⟨h.1, h.2.2.2.2.1⟩

/-- Claim C3, the code at a request for which the random source fails: the builder
returns the empty header mapping, the handler still calls the signer, with that empty
mapping, and answers success when the signer accepts. -/
theorem random_failure_still_signs :
    demoEnvNoRandom.GenerateRandomString 32 = .error "no entropy" ∧
    (userRequestToAssertion demoEnvNoRandom (demoUser "x") demoModel).1 = [] ∧
    SystemUserAssertion demoEnvNoRandom "x" =
      (.systemUser ⟨true, "", "", "", "ACCT\nMODELASSERT\nSIGNED"⟩,
       [.Decode "x", .GetAllowedModel 5, .GetAccount "auth", .GenerateRandomString 32,
        .Message "USER" "generate-assertion" "no entropy",
        .SignAssertion "system-user" [] "auth" "key" "sealed", .Encode]) := by
  refine ⟨rfl, rfl, ?_⟩
  decide

/-- Claim C4 as stated fails: the account lookup fails with the text db down, and the
message of the answer is not that text. -/
theorem account_error_text_not_in_message :
    demoEnv.Decode "model8" = .ok ⟨"a@b.com", "A B", "ab", "pw", 8, ""⟩ ∧
    demoEnv.GetAllowedModel 8 = .ok ⟨8, "m8", "auth8", "key", true, "sealed", "MODELASSERT"⟩ ∧
    demoEnv.GetAccount "auth8" = .error "db down" ∧
    ¬ ((SystemUserAssertion demoEnv "model8").1.errorCode = "account-assertions" ∧
       (SystemUserAssertion demoEnv "model8").1.errorSubcode = "" ∧
       (SystemUserAssertion demoEnv "model8").1.message = "db down") := by
  refine ⟨rfl, rfl, rfl, ?_⟩
  decide

/-- Claim C4, amended: when the body decodes, the model has an active user key and the
account lookup fails with error e, the handler answers unsuccessful with code
account-assertions, an empty subcode and the fixed message of the account assertion; the
text of e goes to the log only. -/
theorem account_failure_has_fixed_message {σ : Type} (env : Environ σ) (body : String)
    (user : SystemUserRequest) (model : Model) (e : String)
    (hd : env.Decode body = .ok user)
    (hm : env.GetAllowedModel user.ModelID = .ok model)
    (hk : model.KeyActiveUser = true)
    (ha : env.GetAccount model.AuthorityIDUser = .error e) :
    (SystemUserAssertion env body).1.success = false ∧
    (SystemUserAssertion env body).1.errorCode = "account-assertions" ∧
    (SystemUserAssertion env body).1.errorSubcode = "" ∧
    (SystemUserAssertion env body).1.message =
      "Error retrieving the account assertion from the database" ∧
    (SystemUserAssertion env body).2 = [.Decode body, .GetAllowedModel user.ModelID,
      .GetAccount model.AuthorityIDUser, .Message "USER" "account-assertions" e] := by
  simp [SystemUserAssertion, hd, hm, hk, ha, FormatStandardResponse, Written.success,
    Written.errorCode, Written.errorSubcode, Written.message]

/-- An instance of the preceding theorem in the example environment. -/
theorem account_failure_has_fixed_message_witness :
    (SystemUserAssertion demoEnv "model8").1.success = false ∧
    (SystemUserAssertion demoEnv "model8").1.errorCode = "account-assertions" ∧
    (SystemUserAssertion demoEnv "model8").1.errorSubcode = "" ∧
    (SystemUserAssertion demoEnv "model8").1.message =
      "Error retrieving the account assertion from the database" ∧
    (SystemUserAssertion demoEnv "model8").2 = [.Decode "model8", .GetAllowedModel 8,
      .GetAccount "auth8", .Message "USER" "account-assertions" "db down"] :=
  account_failure_has_fixed_message demoEnv "model8" ⟨"a@b.com", "A B", "ab", "pw", 8, ""⟩
    ⟨8, "m8", "auth8", "key", true, "sealed", "MODELASSERT"⟩ "db down" rfl rfl rfl rfl

/-- Claim C5, the code at a request whose since is a well-formed RFC 3339 timestamp:
`time.Parse` rejects it under the layout of the program, the clock is read, and the
since header is the rendering of the clock, whatever the clock reads, not of the
supplied instant. -/
theorem wellformed_since_is_replaced_by_clock :
    Parse sinceLayout "2018-06-01T10:00:00+00:00" = .parseError ∧
    (∀ now : Time, sinceOf now "2018-06-01T10:00:00+00:00" = now) ∧
    demoEnv.Now.FormatRFC3339 = "2020-01-01T00:00:00Z" ∧
    (userRequestToAssertion demoEnv (demoUser "2018-06-01T10:00:00+00:00") demoModel).1.lookup
      "since" = some (.str "2020-01-01T00:00:00Z") ∧
    (userRequestToAssertion demoEnv (demoUser "2018-06-01T10:00:00+00:00") demoModel).2 =
      [.GenerateRandomString 32, .CLibCryptUser "pw" "$6$abc9$", .Now] := by
  refine ⟨by decide, ?_, by decide, ?_, ?_⟩
  · intro now
    rw [sinceOf_eq, if_neg (by decide)]
  · decide
  · decide

/-- Claim C6: when the random source succeeds and the clock is in range, the since and
until headers denote instants exactly 8760 hours (31,536,000 seconds) apart, whether
since was parsed or taken from the clock; the since header denotes the whole second of
the instant the builder took, so writing whole seconds does not change the difference;
the duration constant is 24*365 hours and fits 63 bits; and since 2020-01-01T00:00:00Z
gives until 2020-12-31T00:00:00Z, the offset being a duration and not a calendar year. -/
theorem until_is_since_plus_8760_hours {σ : Type} (env : Environ σ)
    (user : SystemUserRequest) (model : Model) (r : String)
    (hr : env.GenerateRandomString 32 = .ok r) (hclock : clockInRange env.Now) :
    (∃ s u : String, ∃ a b : Int,
      (userRequestToAssertion env user model).1.lookup "since" = some (.str s) ∧
      (userRequestToAssertion env user model).1.lookup "until" = some (.str u) ∧
      instantOfRFC3339 s = some a ∧ instantOfRFC3339 u = some b ∧
      a = (sinceOf env.Now user.Since).sec ∧
      b - a = 8760 * 3600 ∧ b - a = 31536000) ∧
    (sinceOf env.Now user.Since).Add oneYearDuration =
      ⟨(sinceOf env.Now user.Since).sec + 31536000, (sinceOf env.Now user.Since).nsec⟩ ∧
    oneYearDuration = 8760 * Hour ∧ oneYearDuration = 31536000 * 1000000000 ∧
    oneYearDuration < 2 ^ 63 ∧
    (⟨1577836800, 0⟩ : Time).FormatRFC3339 = "2020-01-01T00:00:00Z" ∧
    ((⟨1577836800, 0⟩ : Time).Add oneYearDuration).FormatRFC3339 = "2020-12-31T00:00:00Z" := by
  obtain ⟨h0, h1, hlo, hhi⟩ := clockInRange_sinceOf env.Now user.Since hclock
  have hadd := Add_oneYear (sinceOf env.Now user.Since) h0 h1 (by omega) (by omega)
  obtain ⟨hs, hu⟩ := lookup_since env user model r hr
  refine ⟨⟨_, _, (sinceOf env.Now user.Since).sec,
    (sinceOf env.Now user.Since).sec + 31536000, hs, hu, ?_, ?_, rfl, by omega, by omega⟩,
    hadd, by decide, by decide, by decide, by decide, by decide⟩
  · exact instantOfRFC3339_Format _ (by omega) (by omega)
  · rw [hadd]
    exact instantOfRFC3339_Format _ (by simp only; omega) (by simp only; omega)

/-- An instance of the preceding theorem in the example environment. -/
theorem until_is_since_plus_8760_hours_witness :
    (∃ s u : String, ∃ a b : Int,
      (userRequestToAssertion demoEnv (demoUser "") demoModel).1.lookup "since"
        = some (.str s) ∧
      (userRequestToAssertion demoEnv (demoUser "") demoModel).1.lookup "until"
        = some (.str u) ∧
      instantOfRFC3339 s = some a ∧ instantOfRFC3339 u = some b ∧
      a = (sinceOf demoEnv.Now (demoUser "").Since).sec ∧
      b - a = 8760 * 3600 ∧ b - a = 31536000) ∧
    (userRequestToAssertion demoEnv (demoUser "") demoModel).1.lookup "since"
      = some (.str "2020-01-01T00:00:00Z") ∧
    (userRequestToAssertion demoEnv (demoUser "") demoModel).1.lookup "until"
      = some (.str "2020-12-31T00:00:00Z") ∧
    instantOfRFC3339 "2020-01-01T00:00:00Z" = some 1577836800 ∧
    instantOfRFC3339 "2020-12-31T00:00:00Z" = some 1609372800 :=
  ⟨(until_is_since_plus_8760_hours demoEnv (demoUser "") demoModel "ab-_=c9==" rfl
      (by decide)).1, by decide, by decide, by decide, by decide⟩

/-- Claim C7 as stated fails: the since value is the empty string, which does not
parse, and the random source fails; the builder returns the empty mapping, with no
since header. -/
theorem unparseable_since_without_salt_gives_no_headers :
    Parse sinceLayout (demoUser "").Since = .parseError ∧
    (userRequestToAssertion demoEnvNoRandom (demoUser "") demoModel).1 = [] ∧
    (userRequestToAssertion demoEnvNoRandom (demoUser "") demoModel).1.lookup "since" ≠
      some (.str demoEnvNoRandom.Now.FormatRFC3339) := by
  decide

/-- Claim C7, amended: when the since value does not parse under the layout of the
program and the random source succeeds, the builder returns the thirteen headers, reads
the clock, and writes the rendering of the clock as since and of the clock plus
`oneYearDuration` as until; for a clock in range that is the same instant plus exactly
8760 hours. The empty string does not parse. -/
theorem unparseable_since_defaults_to_clock {σ : Type} (env : Environ σ)
    (user : SystemUserRequest) (model : Model) (r : String)
    (hr : env.GenerateRandomString 32 = .ok r)
    (hp : ∀ t, Parse sinceLayout user.Since ≠ .ok t) :
    (userRequestToAssertion env user model).1.map Prod.fst =
      ["type", "revision", "authority-id", "brand-id", "email", "name", "username",
       "password", "models", "series", "since", "until", "sign-key-sha3-384"] ∧
    (userRequestToAssertion env user model).1.lookup "since" =
      some (.str env.Now.FormatRFC3339) ∧
    (userRequestToAssertion env user model).1.lookup "until" =
      some (.str (env.Now.Add oneYearDuration).FormatRFC3339) ∧
    Call.Now ∈ (userRequestToAssertion env user model).2 ∧
    (clockInRange env.Now →
      env.Now.Add oneYearDuration = ⟨env.Now.sec + 8760 * 3600, env.Now.nsec⟩) ∧
    Parse sinceLayout "" = .parseError := by
  have hne : user.Since ≠ sinceLayout := by
    intro h
    apply hp (Date 0 1 1 0 0 0 0)
    rw [Parse_sinceLayout, if_pos h]
  have hpe : Parse sinceLayout user.Since = .parseError := by
    rw [Parse_sinceLayout, if_neg hne]
  have hso : sinceOf env.Now user.Since = env.Now := by
    rw [sinceOf_eq, if_neg hne]
  obtain ⟨hs, hu⟩ := lookup_since env user model r hr
  rw [hso] at hs hu
  refine ⟨?_, hs, hu, ?_, ?_, by decide⟩
  · rw [userRequestToAssertion_ok env user model r hr]
    rfl
  · simp [userRequestToAssertion, hr, hpe]
  · intro hc
    obtain ⟨h0, h1, hlo, hhi⟩ := hc
    exact Add_oneYear env.Now h0 h1 (by omega) (by omega)

/-- An instance of the preceding theorem in the example environment. -/
theorem unparseable_since_defaults_to_clock_witness :
    (userRequestToAssertion demoEnv (demoUser "") demoModel).1.map Prod.fst =
      ["type", "revision", "authority-id", "brand-id", "email", "name", "username",
       "password", "models", "series", "since", "until", "sign-key-sha3-384"] ∧
    (userRequestToAssertion demoEnv (demoUser "") demoModel).1.lookup "since" =
      some (.str demoEnv.Now.FormatRFC3339) ∧
    (userRequestToAssertion demoEnv (demoUser "") demoModel).1.lookup "until" =
      some (.str (demoEnv.Now.Add oneYearDuration).FormatRFC3339) ∧
    demoEnv.Now.Add oneYearDuration = ⟨demoEnv.Now.sec + 8760 * 3600, demoEnv.Now.nsec⟩ :=
  have h := unparseable_since_defaults_to_clock demoEnv (demoUser "") demoModel "ab-_=c9=="
    rfl (fun t h => by
      have e : Parse sinceLayout (demoUser "").Since = ParseResult.parseError := by decide
      rw [e] at h
      cases h)
  ⟨h.1, h.2.1, h.2.2.1, h.2.2.2.2.1 (by decide)⟩

/-- Claim C8: for a random string r and a password p, the replacement of the runs of
characters outside the class by the empty string is r with those characters filtered out;
the salt passed to the hash is the text of three characters dollar, 6, dollar, then that
filtered string s, then a dollar; s has only characters of the class, is no longer than
r (so at most 32 characters when r has 32), as long as r exactly when r is wholly of the
class; and the password header is the hash of p with that salt. -/
theorem salt_is_filtered_random_string {σ : Type} (env : Environ σ)
    (user : SystemUserRequest) (model : Model) (r : String)
    (hr : env.GenerateRandomString 32 = .ok r) :
    ReplaceAllString r "" = String.mk (r.data.filter isAlnum) ∧
    Call.CLibCryptUser user.Password ("$6$" ++ String.mk (r.data.filter isAlnum) ++ "$") ∈
      (userRequestToAssertion env user model).2 ∧
    (∀ p s, Call.CLibCryptUser p s ∈ (userRequestToAssertion env user model).2 →
      p = user.Password ∧ s = "$6$" ++ String.mk (r.data.filter isAlnum) ++ "$") ∧
    ("$6$" ++ String.mk (r.data.filter isAlnum) ++ "$").data =
      "$6$".data ++ r.data.filter isAlnum ++ "$".data ∧
    (userRequestToAssertion env user model).1.lookup "password" =
      some (.str (env.CLibCryptUser user.Password
        ("$6$" ++ String.mk (r.data.filter isAlnum) ++ "$"))) ∧
    (∀ c ∈ (String.mk (r.data.filter isAlnum)).data, isAlnum c = true) ∧
    (String.mk (r.data.filter isAlnum)).length ≤ r.length ∧
    (r.length = 32 → (String.mk (r.data.filter isAlnum)).length ≤ 32) ∧
    ((String.mk (r.data.filter isAlnum)).length = r.length ↔
      ∀ c ∈ r.data, isAlnum c = true) := by
  have hrep : ReplaceAllString r "" = String.mk (r.data.filter isAlnum) := by
    simp [ReplaceAllString, replaceRuns_nil]
  have hlen : (String.mk (r.data.filter isAlnum)).length ≤ r.length := by
    simp only [String.length]
    exact List.length_filter_le _ _
  refine ⟨hrep, ?_, ?_, ?_, ?_, ?_, hlen, ?_, ?_⟩
  · simp [userRequestToAssertion, hr, hrep]
  · intro p s hmem
    simp only [userRequestToAssertion, hr, hrep] at hmem
    cases hparse : Parse sinceLayout user.Since <;> simp [hparse] at hmem <;> exact hmem
  · simp [String.data_append]
  · rw [userRequestToAssertion_ok env user model r hr, hrep]
    rfl
  · intro c hc
    simp only [List.mem_filter] at hc
    exact hc.2
  · intro h32
    omega
  · simp only [String.length]
    constructor
    · intro h c hc
      exact (List.filter_eq_self.mp ((List.filter_sublist r.data).eq_of_length h)) c hc
    · intro h
      rw [List.filter_eq_self.mpr h]

/-- An instance of the preceding theorem in the example environment. -/
theorem salt_is_filtered_random_string_witness :
    ReplaceAllString "ab-_=c9==" "" = "abc9" ∧
    Call.CLibCryptUser "pw" "$6$abc9$" ∈
      (userRequestToAssertion demoEnv (demoUser "x") demoModel).2 ∧
    (userRequestToAssertion demoEnv (demoUser "x") demoModel).1.lookup "password" =
      some (.str "pw|$6$abc9$") ∧
    (String.mk ("ab-_=c9==".data.filter isAlnum)).length ≤ "ab-_=c9==".length :=
  have h := salt_is_filtered_random_string demoEnv (demoUser "x") demoModel "ab-_=c9==" rfl
  ⟨h.1, h.2.1, h.2.2.2.2.1, h.2.2.2.2.2.2.1⟩

/-- Claim C9: when the random source succeeds, the builder returns exactly the thirteen
keys type, revision, authority-id, brand-id, email, name, username, password, models,
series, since, until and sign-key-sha3-384, each once; type is the name of the
system-user assertion type, revision is 1, authority-id and brand-id are the user
authority of the model, email, name and username are those of the request, models and
series are one-element lists, sign-key-sha3-384 is the user key id of the model; and
these values stay the same under any other successful random source and any other
clock. -/
theorem headers_are_the_thirteen_fields {σ : Type} (env : Environ σ)
    (user : SystemUserRequest) (model : Model) (r : String)
    (hr : env.GenerateRandomString 32 = .ok r) :
    (userRequestToAssertion env user model).1.map Prod.fst =
      ["type", "revision", "authority-id", "brand-id", "email", "name", "username",
       "password", "models", "series", "since", "until", "sign-key-sha3-384"] ∧
    ((userRequestToAssertion env user model).1.map Prod.fst).Nodup ∧
    (userRequestToAssertion env user model).1.length = 13 ∧
    (userRequestToAssertion env user model).1.lookup "type" =
      some (.str env.SystemUserTypeName) ∧
    (userRequestToAssertion env user model).1.lookup "revision" = some (.str "1") ∧
    (userRequestToAssertion env user model).1.lookup "authority-id" =
      some (.str model.AuthorityIDUser) ∧
    (userRequestToAssertion env user model).1.lookup "brand-id" =
      some (.str model.AuthorityIDUser) ∧
    (userRequestToAssertion env user model).1.lookup "email" = some (.str user.Email) ∧
    (userRequestToAssertion env user model).1.lookup "name" = some (.str user.Name) ∧
    (userRequestToAssertion env user model).1.lookup "username" =
      some (.str user.Username) ∧
    (userRequestToAssertion env user model).1.lookup "models" =
      some (.list [model.Name]) ∧
    (userRequestToAssertion env user model).1.lookup "series" = some (.list [env.Series]) ∧
    (userRequestToAssertion env user model).1.lookup "sign-key-sha3-384" =
      some (.str model.KeyIDUser) ∧
    (∀ (g : Nat → Except String String) (now : Time) (r2 : String), g 32 = .ok r2 →
      ∀ k ∈ ["type", "revision", "authority-id", "brand-id", "email", "name", "username",
          "models", "series", "sign-key-sha3-384"],
        (userRequestToAssertion { env with GenerateRandomString := g, Now := now }
          user model).1.lookup k = (userRequestToAssertion env user model).1.lookup k) := by
  have hl := userRequestToAssertion_ok env user model r hr
  refine ⟨?_, ?_, ?_, ?_, ?_, ?_, ?_, ?_, ?_, ?_, ?_, ?_, ?_, ?_⟩
  · rw [hl]; rfl
  · rw [hl]; simp
  · rw [hl]; rfl
  · rw [hl]; simp [List.lookup]
  · rw [hl]; simp [List.lookup, userAssertionRevision]
  · rw [hl]; simp [List.lookup]
  · rw [hl]; simp [List.lookup]
  · rw [hl]; simp [List.lookup]
  · rw [hl]; simp [List.lookup]
  · rw [hl]; simp [List.lookup]
  · rw [hl]; simp [List.lookup]
  · rw [hl]; simp [List.lookup]
  · rw [hl]; simp [List.lookup]
  · intro g now r2 hg k hk
    rw [hl, userRequestToAssertion_ok { env with GenerateRandomString := g, Now := now }
      user model r2 hg]
    simp only [List.mem_cons, List.mem_singleton, List.not_mem_nil, or_false] at hk
    rcases hk with h | h | h | h | h | h | h | h | h | h <;> subst h <;> simp [List.lookup]

/-- An instance of the preceding theorem in the example environment. -/
theorem headers_are_the_thirteen_fields_witness :
    (userRequestToAssertion demoEnv (demoUser "x") demoModel).1.map Prod.fst =
      ["type", "revision", "authority-id", "brand-id", "email", "name", "username",
       "password", "models", "series", "since", "until", "sign-key-sha3-384"] ∧
    (userRequestToAssertion demoEnv (demoUser "x") demoModel).1.lookup "username" =
      some (.str "ab") ∧
    (userRequestToAssertion demoEnv (demoUser "x") demoModel).1.lookup "models" =
      some (.list ["m5"]) :=
  have h := headers_are_the_thirteen_fields demoEnv (demoUser "x") demoModel "ab-_=c9==" rfl
  ⟨h.1, h.2.2.2.2.2.2.2.2.2.1, h.2.2.2.2.2.2.2.2.2.2.1⟩

/-- Claim C10: the handler answers success exactly when the decoding, the model lookup,
the active-key check, the account lookup and the signing call all succeed; an
unsuccessful answer carries no assertion; at the first step that fails no later
collaborator is called; a signing error e gives code signing-assertion with message e,
and a failed model lookup gives code invalid-model with the message of the model that
cannot be found. -/
theorem pipeline_short_circuits {σ : Type} (env : Environ σ) (body : String) :
    ((SystemUserAssertion env body).1.success = true ↔
      ∃ user model account signed,
        env.Decode body = .ok user ∧ env.GetAllowedModel user.ModelID = .ok model ∧
        model.KeyActiveUser = true ∧ env.GetAccount model.AuthorityIDUser = .ok account ∧
        env.SignAssertion env.SystemUserTypeName (userRequestToAssertion env user model).1
          model.AuthorityIDUser model.KeyIDUser model.SealedKeyUser = .ok signed) ∧
    ((SystemUserAssertion env body).1.success = false →
      (SystemUserAssertion env body).1.assertion = none) ∧
    ((∀ user, env.Decode body ≠ .ok user) →
      (SystemUserAssertion env body).1.success = false ∧
      ∀ c ∈ (SystemUserAssertion env body).2, c.rank ≤ 1) ∧
    (∀ user e, env.Decode body = .ok user → env.GetAllowedModel user.ModelID = .error e →
      (SystemUserAssertion env body).1 = .standard ⟨false, "invalid-model", "",
        "Cannot find model with the selected ID"⟩ ∧
      ∀ c ∈ (SystemUserAssertion env body).2, c.rank ≤ 2) ∧
    (∀ user model, env.Decode body = .ok user →
      env.GetAllowedModel user.ModelID = .ok model → model.KeyActiveUser = false →
      (SystemUserAssertion env body).1.success = false ∧
      ∀ c ∈ (SystemUserAssertion env body).2, c.rank ≤ 2) ∧
    (∀ user model e, env.Decode body = .ok user →
      env.GetAllowedModel user.ModelID = .ok model → model.KeyActiveUser = true →
      env.GetAccount model.AuthorityIDUser = .error e →
      (SystemUserAssertion env body).1.success = false ∧
      ∀ c ∈ (SystemUserAssertion env body).2, c.rank ≤ 3) ∧
    (∀ user model account e, env.Decode body = .ok user →
      env.GetAllowedModel user.ModelID = .ok model → model.KeyActiveUser = true →
      env.GetAccount model.AuthorityIDUser = .ok account →
      env.SignAssertion env.SystemUserTypeName (userRequestToAssertion env user model).1
        model.AuthorityIDUser model.KeyIDUser model.SealedKeyUser = .error e →
      (SystemUserAssertion env body).1 = .standard ⟨false, "signing-assertion", "", e⟩ ∧
      ∀ c ∈ (SystemUserAssertion env body).2, c.rank ≤ 5) := by
  refine ⟨?_, ?_, ?_, ?_, ?_, ?_, ?_⟩
  · cases hd : env.Decode body with
    | eof => simp [SystemUserAssertion, hd, FormatStandardResponse, Written.success]
    | failed msg => simp [SystemUserAssertion, hd, FormatStandardResponse, Written.success]
    | ok user =>
      cases hm : env.GetAllowedModel user.ModelID with
      | error e => simp [SystemUserAssertion, hd, hm, FormatStandardResponse, Written.success]
      | ok model =>
        cases hk : model.KeyActiveUser with
        | false =>
          simp [SystemUserAssertion, hd, hm, hk, FormatStandardResponse, Written.success]
        | true =>
          cases ha : env.GetAccount model.AuthorityIDUser with
          | error e =>
            simp [SystemUserAssertion, hd, hm, hk, ha, FormatStandardResponse,
              Written.success]
          | ok account =>
            cases hs : env.SignAssertion env.SystemUserTypeName
                (userRequestToAssertion env user model).1 model.AuthorityIDUser
                model.KeyIDUser model.SealedKeyUser with
            | error e =>
              simp [SystemUserAssertion, hd, hm, hk, ha, hs, FormatStandardResponse,
                Written.success]
            | ok signed =>
              simp [SystemUserAssertion, hd, hm, hk, ha, hs, Written.success]
  · cases hd : env.Decode body with
    | eof => simp [SystemUserAssertion, hd, FormatStandardResponse, Written.assertion]
    | failed msg => simp [SystemUserAssertion, hd, FormatStandardResponse, Written.assertion]
    | ok user =>
      cases hm : env.GetAllowedModel user.ModelID with
      | error e =>
        simp [SystemUserAssertion, hd, hm, FormatStandardResponse, Written.assertion]
      | ok model =>
        cases hk : model.KeyActiveUser with
        | false =>
          simp [SystemUserAssertion, hd, hm, hk, FormatStandardResponse, Written.assertion]
        | true =>
          cases ha : env.GetAccount model.AuthorityIDUser with
          | error e =>
            simp [SystemUserAssertion, hd, hm, hk, ha, FormatStandardResponse,
              Written.assertion]
          | ok account =>
            cases hs : env.SignAssertion env.SystemUserTypeName
                (userRequestToAssertion env user model).1 model.AuthorityIDUser
                model.KeyIDUser model.SealedKeyUser with
            | error e =>
              simp [SystemUserAssertion, hd, hm, hk, ha, hs, FormatStandardResponse,
                Written.assertion]
            | ok signed =>
              simp [SystemUserAssertion, hd, hm, hk, ha, hs, Written.success]
  · intro h
    cases hd : env.Decode body with
    | eof => simp [SystemUserAssertion, hd, FormatStandardResponse, Written.success, Call.rank]
    | failed msg =>
      simp [SystemUserAssertion, hd, FormatStandardResponse, Written.success, Call.rank]
    | ok user => exact absurd hd (h user)
  · intro user e hd hm
    simp [SystemUserAssertion, hd, hm, FormatStandardResponse, Call.rank]
  · intro user model hd hm hk
    simp [SystemUserAssertion, hd, hm, hk, FormatStandardResponse, Written.success, Call.rank]
  · intro user model e hd hm hk ha
    simp [SystemUserAssertion, hd, hm, hk, ha, FormatStandardResponse, Written.success,
      Call.rank]
  · intro user model account e hd hm hk ha hs
    simp only [SystemUserAssertion, hd, hm, hk, ha, hs, FormatStandardResponse]
    refine ⟨by simp, ?_⟩
    intro c hc
    simp only [Bool.not_true, Bool.false_eq_true, if_false] at hc
    rcases List.mem_append.mp hc with h1 | h1
    · rcases List.mem_append.mp h1 with h2 | h2
      · rcases List.mem_append.mp h2 with h3 | h3
        · simp only [List.mem_cons, List.mem_singleton, List.not_mem_nil, or_false] at h3
          rcases h3 with h | h | h <;> subst h <;> simp [Call.rank]
        · have := builder_calls_rank env user model c h3
          omega
      · simp only [List.mem_singleton] at h2
        subst h2
        simp [Call.rank]
    · simp only [List.mem_singleton] at h1
      subst h1
      simp [Call.rank]

/-- An instance of the preceding theorem in the example environment. -/
theorem pipeline_short_circuits_witness :
    (SystemUserAssertion demoEnv "x").1.success = true ∧
    ((SystemUserAssertion demoEnv "").1.success = false ∧
      ∀ c ∈ (SystemUserAssertion demoEnv "").2, c.rank ≤ 1) ∧
    ((SystemUserAssertion demoEnv "model7").1 = .standard ⟨false, "invalid-model", "",
        "Cannot find model with the selected ID"⟩ ∧
      ∀ c ∈ (SystemUserAssertion demoEnv "model7").2, c.rank ≤ 2) ∧
    ((SystemUserAssertion demoEnv "model6").1.success = false ∧
      ∀ c ∈ (SystemUserAssertion demoEnv "model6").2, c.rank ≤ 2) ∧
    ((SystemUserAssertion demoEnv "model8").1.success = false ∧
      ∀ c ∈ (SystemUserAssertion demoEnv "model8").2, c.rank ≤ 3) ∧
    ((SystemUserAssertion demoEnv "model9").1 =
        .standard ⟨false, "signing-assertion", "", "cannot sign"⟩ ∧
      ∀ c ∈ (SystemUserAssertion demoEnv "model9").2, c.rank ≤ 5) ∧
    (SystemUserAssertion demoEnv "model9").1.assertion = none :=
  ⟨(pipeline_short_circuits demoEnv "x").1.mpr
      ⟨demoUser "x", demoModel, ⟨"auth", "ACCT"⟩, "SIGNED", rfl, rfl, rfl, rfl, rfl⟩,
   (pipeline_short_circuits demoEnv "").2.2.1 (fun u h => by
      have e : demoEnv.Decode "" = DecodeResult.eof := rfl
      rw [e] at h
      cases h),
   (pipeline_short_circuits demoEnv "model7").2.2.2.1 ⟨"a@b.com", "A B", "ab", "pw", 7, ""⟩
      "sql: no rows in result set" rfl rfl,
   (pipeline_short_circuits demoEnv "model6").2.2.2.2.1 ⟨"a@b.com", "A B", "ab", "pw", 6, ""⟩
      ⟨6, "m6", "auth", "key", false, "sealed", "MODELASSERT"⟩ rfl rfl rfl,
   (pipeline_short_circuits demoEnv "model8").2.2.2.2.2.1
      ⟨"a@b.com", "A B", "ab", "pw", 8, ""⟩
      ⟨8, "m8", "auth8", "key", true, "sealed", "MODELASSERT"⟩ "db down" rfl rfl rfl rfl,
   (pipeline_short_circuits demoEnv "model9").2.2.2.2.2.2
      ⟨"a@b.com", "A B", "ab", "pw", 9, ""⟩
      ⟨9, "m9", "auth", "badkey", true, "sealed", "MODELASSERT"⟩ ⟨"auth", "ACCT"⟩
      "cannot sign" rfl rfl rfl rfl rfl,
   (pipeline_short_circuits demoEnv "model9").2.1 (by decide)⟩

end SerialVault
